import Mathlib

/-!
Shallow embedding of the solver-dispatch core of the repository:
src/app/workers/solve.py (adapter registry, adapter status handling,
integrality classification) and src/app/workers/worker.py
(solve_model_task, the run lifecycle driver), together with the Run
record persisted by src/app/api/models.py.

Modelling conventions:
* Python dict fields that may be absent or None are Option values.
* Numeric values (objective values, bounds) are carried as Int: no claim
  depends on floating-point arithmetic, only on values being copied.
* datetime.utcnow() is modelled by a clock, a function from the index of
  the call (0 for the first call, 1 for the second) to a Nat timestamp.
* The database session is modelled as a keyed store of Run records; a
  session.commit() that persists an updated Run record is recorded as an
  explicit event in an execution trace, so ordering of persistence
  relative to the adapter invocation is observable.
* A Python exception escaping a function is an Except.error value.
-/

namespace OptCore

/-- One entry of model_json decision_variables, as read by the adapters in
src/app/workers/solve.py: name, optional lower and upper bounds, and the
optional integrality string (var.get with default continuous). -/
structure DecisionVariable where
  name : String
  lower : Option Int
  upper : Option Int
  integrality : Option String
deriving DecidableEq

/-- The parts of the model_json dictionary read by get_solver_adapter and
the adapters: the optional type entry and the decision variable list. -/
structure ModelJson where
  type : Option String
  decision_variables : List DecisionVariable
deriving DecidableEq

/-- Classification of a decision variable by an adapter. -/
inductive VarKind
  | integer
  | continuous
deriving DecidableEq

/-- OrtoolsSolver.solve, src/app/workers/solve.py lines 95-99:
integrality = var.get with default continuous; the integer branch is
taken exactly when the string equals integer, every other value falls to
the continuous branch (solver.NumVar). -/
def ortoolsVarKind (integrality : Option String) : VarKind :=
  if integrality.getD "continuous" = "integer" then VarKind.integer else VarKind.continuous

/-- CvxpySolver.solve, src/app/workers/solve.py lines 141-146: same
comparison against the integer string, else a plain cp.Variable. -/
def cvxpyVarKind (integrality : Option String) : VarKind :=
  if integrality.getD "continuous" = "integer" then VarKind.integer else VarKind.continuous

/-- PyomoSolver.solve, src/app/workers/solve.py lines 182-187: same
comparison against the integer string, else within pyo.Reals. -/
def pyomoVarKind (integrality : Option String) : VarKind :=
  if integrality.getD "continuous" = "integer" then VarKind.integer else VarKind.continuous

/-- OrtoolsSolver.solve, src/app/workers/solve.py lines 93-94 and 97-99:
lb is var.get lower with default 0, with `or 0` collapsing a None value
to 0 (Option.getD models both); ub is var.get upper, and None becomes
solver.infinity(), modelled as none (unbounded above). -/
def ortoolsBounds (v : DecisionVariable) : Int × Option Int :=
  (v.lower.getD 0, v.upper)

/-- The pywraplp result status codes offered by the OR-Tools linear
solver wrapper (the values solver.Solve() can return). -/
inductive OrtoolsStatusCode
  | OPTIMAL
  | FEASIBLE
  | INFEASIBLE
  | UNBOUNDED
  | ABNORMAL
  | NOT_SOLVED
  | MODEL_INVALID
deriving DecidableEq

/-- OrtoolsSolver.solve, src/app/workers/solve.py lines 109-115: the
status field of the returned result, translated from the engine status
code (OPTIMAL and FEASIBLE each get their own string, everything else is
mapped to infeasible). -/
def ortoolsStatus : OrtoolsStatusCode → String
  | OrtoolsStatusCode.OPTIMAL => "optimal"
  | OrtoolsStatusCode.FEASIBLE => "feasible"
  | _ => "infeasible"

/-- CvxpySolver.solve, src/app/workers/solve.py line 154: status is
prob.status, the CVXPY native status string, passed through unchanged
into the result at line 158. -/
def cvxpyStatus (probStatus : String) : String :=
  probStatus

/-- The pyomo SolverStatus enumeration (pyomo.opt.SolverStatus): the
possible values of solver_results.solver.status after a solve call that
returns normally. -/
inductive PyomoSolverStatus
  | ok
  | warning
  | error
  | aborted
  | unknown
deriving DecidableEq

/-- PyomoSolver.solve, src/app/workers/solve.py line 200: status is
str(solver_results.solver.status), the string form of the pyomo solver
status, stored unchanged into the result at line 204. -/
def pyomoStatus : PyomoSolverStatus → String
  | PyomoSolverStatus.ok => "ok"
  | PyomoSolverStatus.warning => "warning"
  | PyomoSolverStatus.error => "error"
  | PyomoSolverStatus.aborted => "aborted"
  | PyomoSolverStatus.unknown => "unknown"

/-- The normalized status vocabulary named by the specification. -/
def normalizedStatuses : List String :=
  ["optimal", "feasible", "infeasible", "unbounded", "error"]

/-- The adapter chosen by get_solver_adapter in src/app/workers/solve.py:
one of the three concrete library adapters or the CommercialSolver stub
carrying its solver_name. -/
inductive Adapter
  | ortools
  | cvxpy
  | pyomo
  | commercial (solver_name : String)
deriving DecidableEq

/-- str.lower applied character-wise; the comparisons in
get_solver_adapter only involve ASCII alias strings, for which the
character-wise lowering agrees with the Python builtin. -/
def pyLower (s : String) : String :=
  String.mk (s.data.map Char.toLower)

/-- str.upper applied character-wise; the recognized model types are
all ASCII, for which the character-wise raising agrees with the Python
builtin. -/
def pyUpper (s : String) : String :=
  String.mk (s.data.map Char.toUpper)

/-- Condition of the first branch of get_solver_adapter (line 246):
solver_name in the ortools alias set, or no explicit solver and model
type LP or MIP. -/
def condOrtools (solver_name model_type : String) : Bool :=
  solver_name == "ortools" || solver_name == "scip" || solver_name == "glop"
    || (solver_name == "" && (model_type == "LP" || model_type == "MIP"))

/-- Condition of the second branch of get_solver_adapter (line 248). -/
def condCvxpy (solver_name model_type : String) : Bool :=
  solver_name == "cvxpy" || solver_name == "cvx"
    || (solver_name == "" && model_type == "QP")

/-- Condition of the third branch of get_solver_adapter (line 250). -/
def condPyomo (solver_name model_type : String) : Bool :=
  solver_name == "pyomo" || solver_name == "ipopt"
    || (solver_name == "" && model_type == "NLP")

/-- get_solver_adapter, src/app/workers/solve.py lines 242-253:
model_type is model_json.get type with default LP, upper-cased;
solver_name is the explicit solver (or the empty string when absent),
lower-cased; the three alias branches are tried in order and the
fallback is the CommercialSolver stub named by solver_name, or unknown
when solver_name is empty. -/
def get_solver_adapter (solver : Option String) (model_json : ModelJson) : Adapter :=
  let model_type := pyUpper (model_json.type.getD "LP")
  let solver_name := pyLower (solver.getD "")
  if condOrtools solver_name model_type then Adapter.ortools
  else if condCvxpy solver_name model_type then Adapter.cvxpy
  else if condPyomo solver_name model_type then Adapter.pyomo
  else Adapter.commercial (if solver_name == "" then "unknown" else solver_name)

/-- True when one of the three alias branches of get_solver_adapter
matches, i.e. exactly when the fallback branch is not taken. -/
def selectionMatches (solver : Option String) (model_json : ModelJson) : Bool :=
  let model_type := pyUpper (model_json.type.getD "LP")
  let solver_name := pyLower (solver.getD "")
  condOrtools solver_name model_type || condCvxpy solver_name model_type
    || condPyomo solver_name model_type

/-- The solver_name held by the CommercialSolver instance built by the
fallback branch of get_solver_adapter (line 253): the lower-cased
explicit name, or unknown when it is empty. -/
def commercialFallbackName (solver : Option String) : String :=
  let solver_name := pyLower (solver.getD "")
  if solver_name == "" then "unknown" else solver_name

/-- The result dictionary returned by an adapter solve call, as consumed
by solve_model_task via result.get: the fields may in principle be
absent, which Option models. The worker also writes a run_id entry into
the dictionary before returning it. -/
structure SolveResult where
  solver : Option String
  status : Option String
  objective_value : Option Int
  run_id : Option String
deriving DecidableEq

/-- The message of the NotImplementedError raised by
CommercialSolver.solve (src/app/workers/solve.py lines 225-228); the
quoting punctuation around the name is elided. -/
def commercialErrMsg (solver_name : String) : String :=
  "Commercial solver " ++ solver_name ++ " is not implemented in this open-source scaffold."

/-- CommercialSolver.solve, src/app/workers/solve.py lines 225-228:
unconditionally raises NotImplementedError, carrying the stored
solver_name in the message. -/
def CommercialSolver_solve (solver_name : String) (model_json : ModelJson) :
    Except String SolveResult :=
  Except.error (commercialErrMsg solver_name)

/-- The columns of the runs table that solve_model_task reads or writes
(src/app/api/models.py lines 124-127); the remaining columns are never
touched by the worker and are omitted. -/
structure RunRecord where
  status : String
  started_at : Option Nat
  finished_at : Option Nat
  objective_value : Option Int
deriving DecidableEq

/-- The database visible to the worker, as a store of Run records keyed
by the integer primary key. -/
structure DB where
  runs : Int → Option RunRecord

/-- session.query(models.Run).filter(models.Run.id == pk).first(). -/
def findRun (db : DB) (pk : Int) : Option RunRecord :=
  db.runs pk

/-- Mutating the queried Run object and committing: the record at the
key is replaced, everything else is unchanged. -/
def setRun (db : DB) (pk : Int) (r : RunRecord) : DB :=
  ⟨fun q => if q = pk then some r else db.runs q⟩

/-- Observable persistence and invocation events of one task execution:
a commit persisting an updated Run record, and the call into
solve_model (the adapter invocation). -/
inductive Event
  | commit (pk : Int) (r : RunRecord)
  | adapterCall
deriving DecidableEq

/-- ASCII whitespace stripped by str.strip inside int(). -/
def pyIsSpace (c : Char) : Bool :=
  c == ' ' || c == '\t' || c == '\n' || c == '\x0d' || c == '\x0b' || c == '\x0c'

/-- str.replace of every run_ occurrence by the empty string, applied
character-wise, left to right and non-overlapping, exactly as the
Python builtin scans. -/
def replaceRunTag : List Char → List Char
  | 'r' :: 'u' :: 'n' :: '_' :: rest => replaceRunTag rest
  | c :: rest => c :: replaceRunTag rest
  | [] => []

/-- int() applied to a string, restricted to what the worker needs:
surrounding whitespace stripped, an optional sign, then a nonempty run
of decimal digits (the underscore-separator acceptance of the Python
builtin is irrelevant to the run ids in play and omitted). -/
def parsePyInt (s : String) : Option Int :=
  let t := (s.data.dropWhile pyIsSpace).reverse.dropWhile pyIsSpace |>.reverse
  let signed : Bool × List Char :=
    match t with
    | '-' :: rest => (true, rest)
    | '+' :: rest => (false, rest)
    | _ => (false, t)
  let digits := signed.2
  if !digits.isEmpty && digits.all Char.isDigit then
    let n : Nat := digits.foldl (fun acc c => acc * 10 + (c.toNat - 48)) 0
    some (if signed.1 then -(n : Int) else (n : Int))
  else
    none

/-- solve_model_task, src/app/workers/worker.py lines 69-72: strip a
run_ text id prefix when present (str.replace replaces every
occurrence), parse the rest as an integer primary key; any parse
failure yields run_pk = None. -/
def parseRunId (run_id : String) : Option Int :=
  if ['r', 'u', 'n', '_'].isPrefixOf run_id.data then
    parsePyInt (String.mk (replaceRunTag run_id.data))
  else parsePyInt run_id

/-- The outcome of one solve_model_task execution: the ordered trace of
persistence and invocation events, the final database, and the value
returned (Except.ok) or the exception escaping the task (Except.error). -/
structure TaskOutput where
  trace : List Event
  db : DB
  outcome : Except String SolveResult

/-- solve_model_task, src/app/workers/worker.py lines 41-98.

Parameters: solve_model_avail is whether the guarded import of
solve_model succeeded (a False models the module-level ImportError
fallback, making the task raise RuntimeError at line 60 before touching
the database); db is the database state when the task starts; clock n
is the value of the n-th datetime.utcnow() call; run_id is the task
argument; solveOutcome is what the call solve_model(model_json, solver,
params) returns (ok) or raises (error) - the callee depends on the
installed engines, so the task is parametric in it.

The body follows the source: parse run_pk; if a record is found, set it
to running with started_at and commit; call solve_model (an exception
here escapes the task, there is no except clause, only a finally that
closes the session); write run_id into the result dictionary; re-query
the record and, if found, store result.get status with default
succeeded, result.get objective_value, finished_at, and commit; return
the result. -/
def solve_model_task (solve_model_avail : Bool) (db : DB) (clock : Nat → Nat)
    (run_id : String) (solveOutcome : Except String SolveResult) : TaskOutput :=
  if solve_model_avail = false then
    { trace := [], db := db,
      outcome := Except.error
        "Solver adapters are not available. Ensure optional dependencies are installed." }
  else
    let run_pk := parseRunId run_id
    let step1 : DB × List Event :=
      match run_pk with
      | none => (db, [])
      | some pk =>
        match findRun db pk with
        | none => (db, [])
        | some run =>
          let updated := { run with status := "running", started_at := some (clock 0) }
          (setRun db pk updated, [Event.commit pk updated])
    match solveOutcome with
    | Except.error e =>
      { trace := step1.2 ++ [Event.adapterCall], db := step1.1, outcome := Except.error e }
    | Except.ok res =>
      let res2 := { res with run_id := some run_id }
      let step2 : DB × List Event :=
        match run_pk with
        | none => (step1.1, [])
        | some pk =>
          match findRun step1.1 pk with
          | none => (step1.1, [])
          | some run =>
            let updated := { run with
              status := res2.status.getD "succeeded",
              objective_value := res2.objective_value,
              finished_at := some (clock 1) }
            (setRun step1.1 pk updated, [Event.commit pk updated])
      { trace := step1.2 ++ [Event.adapterCall] ++ step2.2, db := step2.1,
        outcome := Except.ok res2 }

/-- A Run record freshly created in the pending state. -/
def pendingRun : RunRecord :=
  { status := "pending", started_at := none, finished_at := none, objective_value := none }

/-- A database holding one pending Run with primary key 1. -/
def dbPending : DB :=
  ⟨fun q => if q = 1 then some pendingRun else none⟩

/-- A Run record already in the terminal succeeded state, with its
result fields populated by an earlier execution. -/
def succeededRun : RunRecord :=
  { status := "succeeded", started_at := some 5, finished_at := some 6, objective_value := some 5 }

/-- A database holding one succeeded Run with primary key 1. -/
def dbSucceeded : DB :=
  ⟨fun q => if q = 1 then some succeededRun else none⟩

/-- An adapter result with status optimal and objective value 10, as in
the testable property of the specification. -/
def optimalResult : SolveResult :=
  { solver := some "ortools", status := some "optimal", objective_value := some 10,
    run_id := none }

theorem findRun_setRun_self (db : DB) (pk : Int) (r : RunRecord) :
    findRun (setRun db pk r) pk = some r := by
  simp [findRun, setRun]

/-- Claim C1: executing a pending Run whose adapter returns status
optimal with objective value 10 is claimed to leave the Run with status
succeeded. The code (worker.py line 91) stores the adapter status string
verbatim: at this input the Run ends with status optimal, not succeeded,
while the objective value is copied and finished_at (1) is at or after
started_at (0). The stored value optimal is outside the status
vocabulary documented for the runs table in src/app/api/models.py line
124 (pending, running, succeeded, failed, canceled). -/
theorem claim1_adapter_status_stored_verbatim :
    findRun (solve_model_task true dbPending (fun n => n) "1" (Except.ok optimalResult)).db 1
      = some ⟨"optimal", some 0, some 1, some 10⟩ ∧ ("optimal" : String) ≠ "succeeded" :=
  ⟨rfl, by decide⟩

/-- Claim C2, counterexample: at a concrete pending Run, an adapter
error escapes solve_model_task as a raw error and the Run is left in
status running, not failed, refuting the claim as stated. -/
theorem claim2_counterexample :
    (solve_model_task true dbPending (fun n => n) "1"
        (Except.error "OR-Tools is not installed.")).outcome
      = Except.error "OR-Tools is not installed." ∧
    findRun (solve_model_task true dbPending (fun n => n) "1"
        (Except.error "OR-Tools is not installed.")).db 1
      = some ⟨"running", some 0, none, none⟩ ∧ ("running" : String) ≠ "failed" :=
  ⟨rfl, rfl, by decide⟩

/-- Claim C2, amended: an error raised by the adapter invocation
propagates out of solve_model_task uncaught (there is no except clause,
only a finally closing the session), and the Run is left in status
running with started_at set and no failure recorded. -/
theorem claim2_adapter_error_escapes (db : DB) (clock : Nat → Nat) (run_id : String)
    (pk : Int) (run : RunRecord) (e : String)
    (hparse : parseRunId run_id = some pk) (hfind : findRun db pk = some run) :
    (solve_model_task true db clock run_id (Except.error e)).outcome = Except.error e ∧
    findRun (solve_model_task true db clock run_id (Except.error e)).db pk
      = some { run with status := "running", started_at := some (clock 0) } := by
  unfold solve_model_task
  simp [hparse, hfind, findRun_setRun_self]

/-- Witness for claim C2 at a concrete pending Run and error. -/
theorem claim2_witness :
    (solve_model_task true dbPending (fun n => n) "1"
        (Except.error "engine missing")).outcome = Except.error "engine missing" ∧
    findRun (solve_model_task true dbPending (fun n => n) "1"
        (Except.error "engine missing")).db 1
      = some { pendingRun with status := "running", started_at := some 0 } :=
  claim2_adapter_error_escapes dbPending (fun n => n) "1" 1 pendingRun "engine missing" rfl rfl

/-- Claim C3, counterexample: the Pyomo adapter stores
str(solver_results.solver.status) as the result status; on a normal
successful solve this is the string ok, which is not in the normalized
vocabulary, refuting the claim as stated. -/
theorem claim3_counterexample :
    pyomoStatus PyomoSolverStatus.ok = "ok" ∧ ¬ ("ok" ∈ normalizedStatuses) :=
  ⟨rfl, by decide⟩

/-- Claim C3, amended: only the OR-Tools adapter normalizes its engine
status into the specified vocabulary; the CVXPY adapter passes
prob.status through unchanged, and the Pyomo adapter stores the string
form of the pyomo solver status, which lies in the normalized vocabulary
exactly when the engine status is error. -/
theorem claim3_status_vocabulary :
    (∀ c, ortoolsStatus c ∈ normalizedStatuses) ∧
    (∀ s, cvxpyStatus s = s) ∧
    (∀ s, pyomoStatus s ∈ normalizedStatuses ↔ s = PyomoSolverStatus.error) := by
  refine ⟨?_, ?_, ?_⟩
  · intro c; cases c <;> decide
  · intro s; rfl
  · intro s; cases s <;> decide

/-- Claim C4, counterexample: executing a solve against a Run already in
the terminal state succeeded commits it back to running as the first
persisted event and the final database no longer holds the old record,
refuting the claim as stated. -/
theorem claim4_counterexample :
    (solve_model_task true dbSucceeded (fun n => 10 + n) "1"
        (Except.ok optimalResult)).trace.head?
      = some (Event.commit 1 ⟨"running", some 10, some 6, some 5⟩) ∧
    findRun (solve_model_task true dbSucceeded (fun n => 10 + n) "1"
        (Except.ok optimalResult)).db 1 ≠ some succeededRun :=
  ⟨rfl, by decide⟩

/-- Claim C4, amended: solve_model_task guards only on the existence of
the Run, never on its status: executing a solve against a Run in a
terminal state first commits it back to running (overwriting
started_at) and then overwrites status, objective_value and finished_at
with the new adapter result. -/
theorem claim4_terminal_run_remutated (db : DB) (clock : Nat → Nat) (run_id : String)
    (pk : Int) (run : RunRecord) (res : SolveResult)
    (hterm : run.status = "succeeded" ∨ run.status = "failed" ∨ run.status = "canceled")
    (hparse : parseRunId run_id = some pk) (hfind : findRun db pk = some run) :
    (solve_model_task true db clock run_id (Except.ok res)).trace
      = [Event.commit pk { run with status := "running", started_at := some (clock 0) },
         Event.adapterCall,
         Event.commit pk ⟨res.status.getD "succeeded", some (clock 0), some (clock 1),
            res.objective_value⟩] ∧
    findRun (solve_model_task true db clock run_id (Except.ok res)).db pk
      = some ⟨res.status.getD "succeeded", some (clock 0), some (clock 1),
          res.objective_value⟩ := by
  unfold solve_model_task
  simp [hparse, hfind, findRun_setRun_self]

/-- Witness for claim C4 at a concrete succeeded Run re-executed with an
optimal adapter result. -/
theorem claim4_witness :
    (solve_model_task true dbSucceeded (fun n => 10 + n) "1"
        (Except.ok optimalResult)).trace
      = [Event.commit 1 ⟨"running", some 10, some 6, some 5⟩,
         Event.adapterCall,
         Event.commit 1 ⟨"optimal", some 10, some 11, some 10⟩] ∧
    findRun (solve_model_task true dbSucceeded (fun n => 10 + n) "1"
        (Except.ok optimalResult)).db 1
      = some ⟨"optimal", some 10, some 11, some 10⟩ :=
  claim4_terminal_run_remutated dbSucceeded (fun n => 10 + n) "1" 1 succeededRun
    optimalResult (Or.inl rfl) rfl rfl

/-- Claim C6, counterexample: with a run_id that does not parse to a
primary key, solve_model_task performs no commit, invokes the adapter
anyway and returns its result normally, surfacing no failure, refuting
the claim as stated. -/
theorem claim6_counterexample :
    (solve_model_task true dbPending (fun n => n) "nope" (Except.ok optimalResult)).trace
      = [Event.adapterCall] ∧
    (solve_model_task true dbPending (fun n => n) "nope" (Except.ok optimalResult)).outcome
      = Except.ok ⟨some "ortools", some "optimal", some 10, some "nope"⟩ :=
  ⟨rfl, rfl⟩

/-- Claim C6, amended: when the run_id does not parse, or parses to a
key with no Run record, solve_model_task silently skips all persistence
(no commit events, database unchanged) and still invokes the adapter,
returning its result as if the Run existed. -/
theorem claim6_missing_run_executes_normally (db : DB) (clock : Nat → Nat)
    (run_id : String) (res : SolveResult)
    (hmiss : parseRunId run_id = none ∨
      ∃ pk, parseRunId run_id = some pk ∧ findRun db pk = none) :
    (solve_model_task true db clock run_id (Except.ok res)).trace = [Event.adapterCall] ∧
    (solve_model_task true db clock run_id (Except.ok res)).db = db ∧
    (solve_model_task true db clock run_id (Except.ok res)).outcome
      = Except.ok { res with run_id := some run_id } := by
  unfold solve_model_task
  rcases hmiss with h | ⟨pk, h1, h2⟩
  · simp [h]
  · simp [h1, h2]

/-- Witness for claim C6 at a concrete unparsable run id. -/
theorem claim6_witness :
    (solve_model_task true dbPending (fun n => n) "nope" (Except.ok optimalResult)).trace
      = [Event.adapterCall] ∧
    (solve_model_task true dbPending (fun n => n) "nope" (Except.ok optimalResult)).db
      = dbPending ∧
    (solve_model_task true dbPending (fun n => n) "nope" (Except.ok optimalResult)).outcome
      = Except.ok { optimalResult with run_id := some "nope" } :=
  claim6_missing_run_executes_normally dbPending (fun n => n) "nope" optimalResult
    (Or.inl rfl)

/-- Claim C7: whenever the Run record exists, the first two events of a
task execution are, in order, the commit persisting the Run as running
with started_at set, and then the adapter invocation: the running
transition is persisted strictly before the adapter is called, whether
the adapter later returns or raises. -/
theorem claim7_running_commit_precedes_adapter (db : DB) (clock : Nat → Nat)
    (run_id : String) (outcome : Except String SolveResult) (pk : Int) (run : RunRecord)
    (hparse : parseRunId run_id = some pk) (hfind : findRun db pk = some run) :
    (solve_model_task true db clock run_id outcome).trace.take 2
      = [Event.commit pk { run with status := "running", started_at := some (clock 0) },
         Event.adapterCall] := by
  unfold solve_model_task
  cases outcome <;> simp [hparse, hfind]

/-- Witness for claim C7 at a concrete pending Run. -/
theorem claim7_witness :
    (solve_model_task true dbPending (fun n => n) "1"
        (Except.ok optimalResult)).trace.take 2
      = [Event.commit 1 ⟨"running", some 0, none, none⟩, Event.adapterCall] :=
  claim7_running_commit_precedes_adapter dbPending (fun n => n) "1"
    (Except.ok optimalResult) 1 pendingRun rfl rfl

/-- Claim C8, counterexample: a variable declared binary is classified
as continuous by all three adapters (only the exact string integer takes
the integer branch), and the OR-Tools bounds for it are lower 0 and
unbounded above, not the interval from 0 to 1, refuting the claim as
stated. -/
theorem claim8_counterexample :
    ortoolsVarKind (some "binary") = VarKind.continuous ∧
    cvxpyVarKind (some "binary") = VarKind.continuous ∧
    pyomoVarKind (some "binary") = VarKind.continuous ∧
    ortoolsBounds ⟨"x", none, none, some "binary"⟩ = (0, none) :=
  ⟨rfl, rfl, rfl, rfl⟩

theorem classify_integer_iff (i : Option String) :
    (if i.getD "continuous" = "integer" then VarKind.integer else VarKind.continuous)
      = VarKind.integer ↔ i = some "integer" := by
  cases i with
  | none => simp
  | some s => by_cases h : s = "integer" <;> simp [h]

/-- Claim C8, amended: each of the three adapters classifies a variable
as integer exactly when its integrality entry is the string integer;
binary, like every other value, is classified continuous, and bounds are
taken from the lower and upper entries rather than forced to the
interval from 0 to 1. -/
theorem claim8_integrality_classification :
    (∀ i, ortoolsVarKind i = VarKind.integer ↔ i = some "integer") ∧
    (∀ i, cvxpyVarKind i = VarKind.integer ↔ i = some "integer") ∧
    (∀ i, pyomoVarKind i = VarKind.integer ↔ i = some "integer") :=
  ⟨fun i => classify_integer_iff i, fun i => classify_integer_iff i,
    fun i => classify_integer_iff i⟩

/-- Claim C9: get_solver_adapter is a total function (selection never
raises), and whenever none of the three alias branches matches it
returns the CommercialSolver placeholder carrying the fallback name,
whose own solve invocation always raises NotImplementedError, deferring
the failure to invocation time. -/
theorem claim9_selection_total_fallback (solver : Option String) (model_json : ModelJson)
    (h : selectionMatches solver model_json = false) :
    get_solver_adapter solver model_json
      = Adapter.commercial (commercialFallbackName solver) ∧
    ∀ m, CommercialSolver_solve (commercialFallbackName solver) m
      = Except.error (commercialErrMsg (commercialFallbackName solver)) := by
  constructor
  · unfold selectionMatches at h
    simp only [Bool.or_eq_false_iff] at h
    unfold get_solver_adapter commercialFallbackName
    simp [h.1.1, h.1.2, h.2]
  · intro m
    rfl

/-- Witness for claim C9 at an unknown explicit solver name. -/
theorem claim9_witness :
    get_solver_adapter (some "gurobi") ⟨none, []⟩
      = Adapter.commercial (commercialFallbackName (some "gurobi")) ∧
    ∀ m, CommercialSolver_solve (commercialFallbackName (some "gurobi")) m
      = Except.error (commercialErrMsg (commercialFallbackName (some "gurobi"))) :=
  claim9_selection_total_fallback (some "gurobi") ⟨none, []⟩ rfl

/-- Claim C10: a model dictionary without a type entry, combined with an
absent or empty explicit solver name, selects the OR-Tools adapter: the
missing type defaults to LP inside get_solver_adapter and matches the
first branch rather than falling through to the placeholder. -/
theorem claim10_missing_type_defaults_ortools (model_json : ModelJson)
    (solver : Option String) (htype : model_json.type = none)
    (hsolver : solver = none ∨ solver = some "") :
    get_solver_adapter solver model_json = Adapter.ortools := by
  rcases hsolver with h | h <;> subst h <;>
    · unfold get_solver_adapter
      rw [htype]
      rfl

/-- Witness for claim C10 at a model with no type entry and no solver. -/
theorem claim10_witness :
    get_solver_adapter none ⟨none, []⟩ = Adapter.ortools :=
  claim10_missing_type_defaults_ortools ⟨none, []⟩ none rfl (Or.inl rfl)

end OptCore
